import Mathlib

/-!
Shallow embedding of `app.py` (tegel-visualizer): a Streamlit app that
uploads a bathroom photo, picks a wall-panel reference image, and calls an
external image-generation endpoint.

The embedding models:
* Streamlit session state as a partial map `String → Option SVal`;
* the password gate (`check_password` / `password_entered`);
* the finish-instruction string logic (`get_finish_instruction`);
* PIL images by the constructors the program uses (`Image.open` on a byte
  stream, `Image.new`), with PNG serialization as an abstract `save`
  parameter;
* a concrete base64 codec (RFC 4648) standing for Python's `base64`
  module;
* `generate_with_ultra_specific_masking` over an abstract client
  `Request → Except String APIResponse`, returning the outcome together
  with the list of requests it issued;
* the tile-selection fragment of `main` with the filesystem as a partial
  map `String → Option PILImage`.
-/

/-- A value stored in Streamlit session state: the app only ever stores
strings (the text input) and booleans (the `password_correct` flag). -/
inductive SVal where
  | str (s : String)
  | bool (b : Bool)
deriving DecidableEq

/-- Session state: a partial map from keys to values. -/
def SessionState := String → Option SVal

/-- Python truthiness of a session-state value. -/
def SVal.truthy : SVal → Bool
  | .str s => !(s == "")
  | .bool b => b

/-- Python truthiness of `st.session_state.get(k, False)`. -/
def truthyOpt : Option SVal → Bool
  | some v => v.truthy
  | none => false

/-- `password_entered` (app.py lines 30-36): reads the entered string from
`st.session_state["password"]` (raising `KeyError`, modelled as `none`, if
the key is absent or holds a non-string), compares it with the stored
secret, and updates the state: on a match it sets `password_correct` to
`True` and deletes the `password` key; otherwise it sets
`password_correct` to `False`. -/
def password_entered (password_from_secrets : String) (st : SessionState) :
    Option SessionState :=
  match st "password" with
  | some (SVal.str entered) =>
      if entered == password_from_secrets then
        some (fun k =>
          if k == "password_correct" then some (SVal.bool true)
          else if k == "password" then none
          else st k)
      else
        some (fun k =>
          if k == "password_correct" then some (SVal.bool false)
          else st k)
  | _ => none

/-- `check_password` (app.py lines 9-49), with the secrets lookup modelled
as an `Option String` (`none` covers both the `FileNotFoundError` and the
`KeyError` branch, which return `False`).  In the normal path it returns
early with `True` when the `password_correct` flag is truthy, and
otherwise renders the password input and returns
`st.session_state.get("password_correct", False)`. -/
def check_password (secrets : Option String) (st : SessionState) : Bool :=
  match secrets with
  | none => false
  | some _ =>
      if truthyOpt (st "password_correct") then true
      else truthyOpt (st "password_correct")

/-- Does the char list starting here begin with `pat`? (helper for
substring containment, modelling the Python `in` operator on strings). -/
def listStartsWith : List Char → List Char → Bool
  | _, [] => true
  | [], _ :: _ => false
  | c :: cs, p :: ps => c == p && listStartsWith cs ps

/-- Substring containment on char lists (Python `pat in s`). -/
def listContainsSub : List Char → List Char → Bool
  | [], pat => pat.isEmpty
  | c :: cs, pat => listStartsWith (c :: cs) pat || listContainsSub cs pat

/-- Python `pat in s` for strings. -/
def strContains (s pat : String) : Bool :=
  listContainsSub s.toList pat.toList

/-- ASCII lowercasing of one character (the tile names are ASCII, so this
agrees with the Python `str.lower` method on every input the app produces). -/
def lowerChar (c : Char) : Char :=
  if c.val ≥ 65 && c.val ≤ 90 then Char.ofNat (c.toNat + 32) else c

/-- `s.lower()` on the list representation of strings. -/
def strToLower (s : String) : String :=
  String.mk (s.toList.map lowerChar)

/-- `get_finish_instruction` (app.py lines 76-87).  `tile_name` is an
arbitrary Python value restricted to `None` or a string (`Option String`);
`if not tile_name` is Python falsiness. -/
def get_finish_instruction (tile_name : Option String) : String :=
  if tile_name.getD "" == "" then
    "Apply appropriate finish based on reference image"
  else
    let tile_name_lower := strToLower (tile_name.getD "")
    if strContains tile_name_lower "glans" || strContains tile_name_lower "hoogglans" then
      "Apply glossy, reflective finish with sharp, clear reflections that accurately show the room\x27s lighting"
    else if strContains tile_name_lower "mat" || strContains tile_name_lower "matte" then
      "Apply matte, non-reflective finish with soft, diffused lighting and no sharp reflections"
    else
      "Apply finish matching the reference image characteristics"

/-! ### base64 (RFC 4648), modelling the Python `base64.b64encode` /
`base64.b64decode` functions on byte streams -/

/-- The base64 alphabet. -/
def b64Alphabet : List Char :=
  "ABCDEFGHIJKLMNOPQRSTUVWXYZabcdefghijklmnopqrstuvwxyz0123456789+/".toList

/-- Encode one 6-bit group as a base64 character. -/
def encSextet (n : Nat) : Char := b64Alphabet.getD n '?'

/-- Decode one base64 character back to its 6-bit group. -/
def decSextet (c : Char) : Option Nat := b64Alphabet.indexOf? c

/-- `base64.b64encode` on a byte list: groups of three bytes become four
characters, with `=` padding for a trailing group of one or two bytes. -/
def b64encodeBytes : List Nat → List Char
  | [] => []
  | [b0] => [encSextet (b0 / 4), encSextet (b0 % 4 * 16), '=', '=']
  | [b0, b1] =>
      [encSextet (b0 / 4), encSextet (b0 % 4 * 16 + b1 / 16),
       encSextet (b1 % 16 * 4), '=']
  | b0 :: b1 :: b2 :: rest =>
      encSextet (b0 / 4) :: encSextet (b0 % 4 * 16 + b1 / 16) ::
      encSextet (b1 % 16 * 4 + b2 / 64) :: encSextet (b2 % 64) ::
      b64encodeBytes rest

/-- Decode one four-character base64 group (possibly padded). -/
def decGroup (c0 c1 c2 c3 : Char) : Option (List Nat) :=
  match decSextet c0, decSextet c1 with
  | some s0, some s1 =>
      if c2 == '=' && c3 == '=' then
        some [s0 * 4 + s1 / 16]
      else if c3 == '=' then
        match decSextet c2 with
        | some s2 => some [s0 * 4 + s1 / 16, s1 % 16 * 16 + s2 / 4]
        | none => none
      else
        match decSextet c2, decSextet c3 with
        | some s2, some s3 =>
            some [s0 * 4 + s1 / 16, s1 % 16 * 16 + s2 / 4, s2 % 4 * 64 + s3]
        | _, _ => none
  | _, _ => none

/-- `base64.b64decode` on the character list: consumes four characters at
a time; anything that is not a well-formed group fails (the Python call
raises `binascii.Error`, modelled as `none`). -/
def b64decodeChars : List Char → Option (List Nat)
  | [] => some []
  | c0 :: c1 :: c2 :: c3 :: rest =>
      match decGroup c0 c1 c2 c3, b64decodeChars rest with
      | some bs, some rest' => some (bs ++ rest')
      | _, _ => none
  | _ => none

/-- `base64.b64encode(...).decode()`: byte list to string. -/
def b64encode (bytes : List Nat) : String := String.mk (b64encodeBytes bytes)

/-- `base64.b64decode` on a string. -/
def b64decodeString (s : String) : Option (List Nat) := b64decodeChars s.toList

/-! ### PIL images -/

/-- A PIL image, by the constructors the program uses: `Image.open` on a
byte stream (`fromBytes`) and `Image.new(mode, size, color)` (`new`). -/
inductive PILImage where
  | fromBytes (bytes : List Nat)
  | new (mode : String) (size : Nat × Nat) (color : String)
deriving DecidableEq

/-- The PNG magic signature. -/
def pngSignature : List Nat := [137, 80, 78, 71, 13, 10, 26, 10]

/-- `Image.open(io.BytesIO(bytes))`: PIL identifies the stream by its
magic bytes (the endpoint returns PNG, so the model checks the PNG
signature) and raises otherwise, modelled as `none`. -/
def imageOpen (bytes : List Nat) : Option PILImage :=
  if pngSignature.isPrefixOf bytes then some (PILImage.fromBytes bytes) else none

/-- `encode_image_to_base64` (app.py lines 69-74): `image.save(buffer,
format="PNG")` followed by `base64.b64encode(buffer.getvalue()).decode()`.
PNG serialization is a PIL internal, passed in as `save`. -/
def encode_image_to_base64 (save : PILImage → List Nat) (image : PILImage) :
    String :=
  b64encode (save image)

/-! ### The request sent to the image-generation endpoint -/

/-- One content item of the user message (`input_text` / `input_image`
dictionaries in app.py lines 240-249). -/
inductive ContentItem where
  | input_text (text : String)
  | input_image (image_url : String)
deriving DecidableEq

/-- One message of the `input` list. -/
structure Message where
  role : String
  content : List ContentItem
deriving DecidableEq

/-- The argument of `client.responses.create` (app.py lines 234-253);
`tools` lists the tool types enabled. -/
structure Request where
  model : String
  input : List Message
  tools : List String
deriving DecidableEq

/-- One element of `response.output`: its `type` tag and, for
`image_generation_call` elements, the base64 `result` payload. -/
structure ResponseOutput where
  type : String
  result : String
deriving DecidableEq

/-- The response object returned by `client.responses.create`. -/
structure APIResponse where
  output : List ResponseOutput
deriving DecidableEq

/-- What an invocation of `generate_with_ultra_specific_masking` does, as
observed by the caller and the user: the `st.error` message shown (if
any), the returned value, and the list of requests issued to the
endpoint, in order. -/
structure GenOutcome where
  errorMessage : Option String
  result : Option PILImage
  requests : List Request
deriving DecidableEq

/-- The f-string `ultra_specific_prompt` (app.py lines 194-231) up to the
`{finish_instruction}` interpolation point. -/
def ultraPromptPre : String := "
CRITICAL MASKING TASK: Apply new wall panels ONLY to specific masked areas.

MASKING RULES - ABSOLUTE BOUNDARIES:
🚫 PROTECTED ZONES (NEVER TOUCH - KEEP 100% ORIGINAL):
- Bathtub structure: ALL sides, front panel, edges, rim, and any tiles directly touching the bathtub
- Toilet area: ALL surfaces within 50cm radius of toilet, including floor and wall tiles around toilet
- Floor: ENTIRE floor surface throughout the room - no changes whatsoever
- Window and frame: Complete window assembly and surrounding areas
- All fixtures, hardware, pipes, faucets, handles, towel bars
- Ceiling and any ceiling-mounted elements

✅ MODIFICATION ZONE (ONLY THESE AREAS):
- Large vertical wall surfaces that are clearly separated from fixtures
- Main room background walls that do not touch or connect to bathtub or toilet
- Wall areas that are at least 1 meter away from any fixture

SPATIAL IDENTIFICATION PROCESS:
1. Identify the bathtub location and mark ALL adjacent surfaces as PROTECTED
2. Identify the toilet location and mark ALL surrounding surfaces as PROTECTED\x20\x20
3. Mark the floor as completely PROTECTED
4. Find ONLY the main room walls that are isolated from fixtures
5. Apply panels ONLY to these isolated wall areas

PANEL APPLICATION REQUIREMENTS:
- Show panels as seamless, continuous surface with ZERO joints or grout lines
- "

/-- The same f-string after the `{finish_instruction}` interpolation
point. -/
def ultraPromptPost : String := "
- Maintain exact lighting from original photo
- Apply ONLY to the identified safe wall zones

TECHNICAL EXECUTION:
- Photorealistic quality matching original
- Preserve exact camera angle and perspective
- No modernization or upgrades to any elements
- Think of this as applying wallpaper to specific wall sections only

VERIFICATION CHECK: Before applying panels, verify that NO part of the bathtub structure or toilet area will be modified. The bathtub must remain exactly as it is in the original photo.
"

/-- The full `ultra_specific_prompt` for a given finish instruction. -/
def ultraSpecificPrompt (finish_instruction : String) : String :=
  ultraPromptPre ++ finish_instruction ++ ultraPromptPost

/-- The single request `generate_with_ultra_specific_masking` builds
(app.py lines 234-253): model `gpt-4.1`, one user message carrying the
prompt text then the two images as `data:image/png;base64` URLs, and the
`image_generation` tool enabled. -/
def mkUltraRequest (save : PILImage → List Nat)
    (original_image selected_tile : PILImage) (tile_name : String) : Request :=
  let bathroom_b64 := encode_image_to_base64 save original_image
  let tile_b64 := encode_image_to_base64 save selected_tile
  let finish_instruction := get_finish_instruction (some tile_name)
  { model := "gpt-4.1"
    input := [{ role := "user"
                content := [ContentItem.input_text (ultraSpecificPrompt finish_instruction),
                            ContentItem.input_image ("data:image/png;base64," ++ bathroom_b64),
                            ContentItem.input_image ("data:image/png;base64," ++ tile_b64)] }]
    tools := ["image_generation"] }

/-- The `st.error` prefix of the catch-all handler (app.py line 274). -/
def errPrefix : String := "Fout bij het genereren van afbeelding: "

/-- `str(e)` of the `binascii.Error` raised by `base64.b64decode` on an
invalid payload. -/
def b64ErrorMessage : String := "Invalid base64-encoded string"

/-- `str(e)` of the error raised by `Image.open` on an unidentifiable
stream. -/
def unidentifiedImageMessage : String := "cannot identify image file"

/-- `generate_with_ultra_specific_masking` (app.py lines 185-275).  The
client is an abstract function from the request to either a response or a
raised exception (`Except.error`); every raise inside the `try` block
falls into the single catch-all handler, which shows
`errPrefix ++ str(e)` and returns `None`.  The extraction step filters
`response.output` for `image_generation_call` elements, takes the first
result, base64-decodes it and opens it as an image. -/
def generate_with_ultra_specific_masking (save : PILImage → List Nat)
    (client : Request → Except String APIResponse)
    (original_image selected_tile : PILImage) (tile_name : String) :
    GenOutcome :=
  let req := mkUltraRequest save original_image selected_tile tile_name
  match client req with
  | Except.error e =>
      { errorMessage := some (errPrefix ++ e), result := none, requests := [req] }
  | Except.ok response =>
      let image_generation_calls :=
        response.output.filter fun o => o.type == "image_generation_call"
      let image_data := image_generation_calls.map fun o => o.result
      match image_data with
      | [] =>
          { errorMessage := some "Geen afbeelding gegenereerd.", result := none,
            requests := [req] }
      | image_base64 :: _ =>
          match b64decodeString image_base64 with
          | none =>
              { errorMessage := some (errPrefix ++ b64ErrorMessage), result := none,
                requests := [req] }
          | some image_bytes =>
              match imageOpen image_bytes with
              | none =>
                  { errorMessage := some (errPrefix ++ unidentifiedImageMessage),
                    result := none, requests := [req] }
              | some generated_image =>
                  { errorMessage := none, result := some generated_image,
                    requests := [req] }

/-- The `input_text` parts of a request, in order (an observer used to
state which prompt text a request carries). -/
def textParts (r : Request) : List String :=
  r.input.flatMap fun m =>
    m.content.filterMap fun c =>
      match c with
      | ContentItem.input_text t => some t
      | ContentItem.input_image _ => none

/-! ### The tile-selection fragment of `main` (app.py lines 511-568) -/

/-- The sentinel entry of the selectbox. -/
def defaultTileOption : String := "--- Selecteer een wandpaneel ---"

/-- The `tile_options` dict (app.py lines 512-549): display name to image
path, `none` for the sentinel. -/
def tile_options : List (String × Option String) :=
  [(defaultTileOption, none),
   ("PVC Hoogglans Calacatta Wit", some "tiles/pvc_hoogglans_calacatta_wit.jpg"),
   ("PVC Hoogglans Bianco Venato Wit", some "tiles/pvc_hoogglans_bianco_venato_wit.jpg"),
   ("PVC Hoogglans Carrara Wit", some "tiles/pvc_hoogglans_carrara_wit.jpg"),
   ("PVC Hoogglans Effen Wit", some "tiles/pvc_hoogglans_effen_wit.jpg"),
   ("PVC Hoogglans Eclipse Marble", some "tiles/pvc_hoogglans_eclipse_marble.jpg"),
   ("PVC Hoogglans Glazed Taupe Marble", some "tiles/pvc_hoogglans_glazed_taupe_marble.jpg"),
   ("PVC Hoogglans Grigio Orobico Gold", some "tiles/pvc_hoogglans_grigio_orobico_gold.jpg"),
   ("PVC Hoogglans Marquina Zwart", some "tiles/pvc_hoogglans_marquina_zwart.jpg"),
   ("PVC Hoogglans Onyx Grigio", some "tiles/pvc_hoogglans_onyx_grigio.jpg"),
   ("PVC Hoogglans Stone Marble", some "tiles/pvc_hoogglans_stone_marble.jpg"),
   ("PVC Silver Wave Glans Grijs", some "tiles/pvc_silver_wave_glans_grijs.jpg"),
   ("PVC Carnico Glans Grijs", some "tiles/pvc_carnico_glans_grijs.jpg"),
   ("PVC Calacatta Gold Matte", some "tiles/pvc_calacatta_gold_matte.jpg"),
   ("PVC Carnico Mat Grijs", some "tiles/pvc_carnico_mat_grijs.jpg"),
   ("PVC Crema Marfil Mat Beige", some "tiles/pvc_crema_marfil_mat_beige.jpg"),
   ("PVC Nero Marquina Gold Mat Zwart", some "tiles/pvc_nero_marquina_gold_mat_zwart.jpg"),
   ("PVC Pietra Grey Mat Grijs", some "tiles/pvc_pietra_grey_mat_grijs.jpg"),
   ("PVC Sandstone Mat Beige", some "tiles/pvc_sandstone_mat_beige.jpg"),
   ("PVC Taupe Marble Matte", some "tiles/pvc_taupe_marble_matte.jpg"),
   ("SPC Beton Look Mat Grijs", some "tiles/spc_beton_look_mat_grijs.jpg"),
   ("SPC Breccia Pernice Mat", some "tiles/spc_breccia_pernice_mat.jpg"),
   ("SPC Carrara Mat Grijs", some "tiles/spc_carrara_mat_grijs.jpg"),
   ("SPC Carrara Matte White", some "tiles/spc_carrara_matte_white.jpg"),
   ("SPC Crema Marfil Mat Beige", some "tiles/spc_crema_marfil_mat_beige.jpg"),
   ("SPC Desert Mist Mat Taupe Beige", some "tiles/spc_desert_mist_mat_taupe_beige.jpg"),
   ("SPC Emperador Dark Mat Bruin", some "tiles/spc_emperador_dark_mat_bruin.jpg"),
   ("SPC Forest Slate Mat Groen Bruin", some "tiles/spc_forest_slate_mat_groen_bruin.jpg"),
   ("SPC Granite Mist Matte", some "tiles/spc_granite_mist_matte.jpg"),
   ("SPC Marmer Mat Beige Taupe", some "tiles/spc_marmer_mat_beige_taupe.jpg"),
   ("SPC Rustic Copper Stone Mat Koper", some "tiles/spc_rustic_copper_stone_mat_koper.jpg"),
   ("SPC Rustic Stone Mat", some "tiles/spc_rustic_stone_mat.jpg"),
   ("SPC Serpeggiante Marble Mat Beige Groen", some "tiles/spc_serpeggiante_marble_mat_beige_groen.jpg"),
   ("SPC Silk Marble Matte", some "tiles/spc_silk_marble_matte.jpg"),
   ("SPC Smoky Granite Matte", some "tiles/spc_smoky_granite_matte.jpg"),
   ("SPC Stone Grey Mat Grijs", some "tiles/spc_stone_grey_mat_grijs.jpg")]

/-- The `final_tile_image` computation of `main` (app.py lines 556-568).
The filesystem is a partial map from paths to the images stored there
(`none` models `FileNotFoundError`).  For the sentinel the variable stays
`None`; otherwise the path is looked up in `tile_options` (the selectbox
only offers its keys, so the lookup cannot miss) and the file is opened,
with a 200x200 grey `Image.new` placeholder substituted when the file is
absent. -/
def resolveFinalTileImage (fs : String → Option PILImage)
    (selected_tile_name : String) : Option PILImage :=
  if selected_tile_name == defaultTileOption then none
  else
    match tile_options.lookup selected_tile_name with
    | some (some tile_path) =>
        match fs tile_path with
        | some img => some img
        | none => some (PILImage.new "RGB" (200, 200) "grey")
    | _ => none

/-! ## Witness inputs -/

/-! ### Concrete inputs used by the witnesses -/

/-- A session state holding only a (correct) entered password. -/
def stGate : SessionState :=
  fun k => if k == "password" then some (SVal.str "geheim") else none

/-- The state `password_entered` produces from `stGate` on the matching
secret. -/
def stGateAfter : SessionState :=
  fun k =>
    if k == "password_correct" then some (SVal.bool true)
    else if k == "password" then none
    else stGate k

/-- A session state with a wrong entry and an unrelated key. -/
def stGateWrong : SessionState :=
  fun k =>
    if k == "password" then some (SVal.str "fout")
    else if k == "bathroom_upload" then some (SVal.str "foto.png")
    else none

/-- The state `password_entered` produces from `stGateWrong`. -/
def stGateWrongAfter : SessionState :=
  fun k => if k == "password_correct" then some (SVal.bool false) else stGateWrong k

/-- A concrete 1x1 image. -/
def imgW : PILImage := PILImage.new "RGB" (1, 1) "white"

/-- A response carrying one generated image: the PNG signature bytes,
base64-encoded. -/
def respW : APIResponse :=
  { output := [{ type := "image_generation_call", result := b64encode pngSignature }] }

/-! ## Theorems -/

theorem decSextet_encSextet_ball : ∀ s < 64, decSextet (encSextet s) = some s := by decide

theorem encSextet_ne_pad_ball : ∀ s < 64, (encSextet s == '=') = false := by decide

theorem decGroup_enc1 (b0 : Nat) (h0 : b0 < 256) :
    decGroup (encSextet (b0 / 4)) (encSextet (b0 % 4 * 16)) '=' '=' = some [b0] := by
  have e0 := decSextet_encSextet_ball (b0 / 4) (by omega)
  have e1 := decSextet_encSextet_ball (b0 % 4 * 16) (by omega)
  simp only [decGroup, e0, e1]
  norm_num
  omega

theorem decGroup_enc2 (b0 b1 : Nat) (h0 : b0 < 256) (h1 : b1 < 256) :
    decGroup (encSextet (b0 / 4)) (encSextet (b0 % 4 * 16 + b1 / 16))
      (encSextet (b1 % 16 * 4)) '=' = some [b0, b1] := by
  have e0 := decSextet_encSextet_ball (b0 / 4) (by omega)
  have e1 := decSextet_encSextet_ball (b0 % 4 * 16 + b1 / 16) (by omega)
  have e2 := decSextet_encSextet_ball (b1 % 16 * 4) (by omega)
  have n2 := encSextet_ne_pad_ball (b1 % 16 * 4) (by omega)
  simp only [decGroup, e0, e1, e2, n2, Bool.false_and, Bool.and_false, if_false]
  norm_num
  omega

theorem decGroup_enc3 (b0 b1 b2 : Nat) (h0 : b0 < 256) (h1 : b1 < 256) (h2 : b2 < 256) :
    decGroup (encSextet (b0 / 4)) (encSextet (b0 % 4 * 16 + b1 / 16))
      (encSextet (b1 % 16 * 4 + b2 / 64)) (encSextet (b2 % 64)) = some [b0, b1, b2] := by
  have e0 := decSextet_encSextet_ball (b0 / 4) (by omega)
  have e1 := decSextet_encSextet_ball (b0 % 4 * 16 + b1 / 16) (by omega)
  have e2 := decSextet_encSextet_ball (b1 % 16 * 4 + b2 / 64) (by omega)
  have e3 := decSextet_encSextet_ball (b2 % 64) (by omega)
  have n2 := encSextet_ne_pad_ball (b1 % 16 * 4 + b2 / 64) (by omega)
  have n3 := encSextet_ne_pad_ball (b2 % 64) (by omega)
  simp only [decGroup, e0, e1, e2, e3, n2, n3, Bool.false_and, Bool.and_false, if_false]
  norm_num
  omega

theorem b64decodeChars_encodeBytes (l : List Nat) (h : ∀ b ∈ l, b < 256) :
    b64decodeChars (b64encodeBytes l) = some l := by
  revert h
  induction l using b64encodeBytes.induct with
  | case1 => intro h; rfl
  | case2 b0 =>
      intro h
      have h0 : b0 < 256 := h b0 (by simp)
      simp [b64encodeBytes, b64decodeChars, decGroup_enc1 b0 h0]
  | case3 b0 b1 =>
      intro h
      have h0 : b0 < 256 := h b0 (by simp)
      have h1 : b1 < 256 := h b1 (by simp)
      simp [b64encodeBytes, b64decodeChars, decGroup_enc2 b0 b1 h0 h1]
  | case4 b0 b1 b2 rest ih =>
      intro h
      have h0 : b0 < 256 := h b0 (by simp)
      have h1 : b1 < 256 := h b1 (by simp)
      have h2 : b2 < 256 := h b2 (by simp)
      have hrest : ∀ b ∈ rest, b < 256 := fun b hb => h b (by simp [hb])
      simp [b64encodeBytes, b64decodeChars, decGroup_enc3 b0 b1 b2 h0 h1 h2, ih hrest]

/-- C1: the password gate records success exactly when the entered string
equals the stored secret `PASSWORD` value: `password_entered` runs without
raising and sets `password_correct` to `True` iff the entered string
equals the stored value, and `check_password` returns `True` exactly when
that flag is `True`. -/
theorem claim_C1_password_gate (pw entered : String) (st : SessionState)
    (hin : st "password" = some (SVal.str entered))
    (hwf : st "password_correct" = none ∨
      ∃ b, st "password_correct" = some (SVal.bool b)) :
    password_entered pw st ≠ none ∧
    (∀ st', password_entered pw st = some st' →
      ( st' "password_correct" = some (SVal.bool true) ↔ entered = pw)) ∧
    (check_password (some pw) st = true ↔
      st "password_correct" = some (SVal.bool true)) := by
  refine ⟨?_, ?_, ?_⟩
  · unfold password_entered
    rw [hin]
    cases h : entered == pw <;> simp [h]
  · intro st' hrun
    unfold password_entered at hrun
    rw [hin] at hrun
    by_cases h : entered = pw
    · simp only [h, beq_self_eq_true, if_true, Option.some.injEq] at hrun
      subst hrun
      simp [h]
    · have hb : (entered == pw) = false := by simp [h]
      simp only [hb, Bool.false_eq_true, if_false, Option.some.injEq] at hrun
      subst hrun
      simp [h]
  · rcases hwf with hwf | ⟨b, hwf⟩
    · simp [check_password, truthyOpt, hwf]
    · cases b <;> simp [check_password, truthyOpt, SVal.truthy, hwf]

/-- C9: `password_entered` modifies only the two session-state keys
`password` and `password_correct`: a correct entry sets the flag to
`True` and deletes the plaintext `password` key; an incorrect entry sets
it to `False` and leaves `password` present; every other key is
unchanged in both cases. -/
theorem claim_C9_password_frame (pw entered : String) (st st' : SessionState)
    (hin : st "password" = some (SVal.str entered))
    (hrun : password_entered pw st = some st') :
    (entered = pw →
      st' "password_correct" = some (SVal.bool true) ∧ st' "password" = none) ∧
    (entered ≠ pw →
      st' "password_correct" = some (SVal.bool false) ∧
      st' "password" = st "password") ∧
    (∀ k, k ≠ "password" → k ≠ "password_correct" → st' k = st k) := by
  unfold password_entered at hrun
  rw [hin] at hrun
  by_cases h : entered = pw
  · simp only [h, beq_self_eq_true, if_true, Option.some.injEq] at hrun
    subst hrun
    refine ⟨fun _ => ⟨by simp, by simp⟩, fun hne => absurd h hne, ?_⟩
    intro k hk1 hk2
    simp [hk1, hk2]
  · have hb : (entered == pw) = false := by simp [h]
    simp only [hb, Bool.false_eq_true, if_false, Option.some.injEq] at hrun
    subst hrun
    refine ⟨fun he => absurd he h, fun _ => ⟨by simp, by simp [hin]⟩, ?_⟩
    intro k hk1 hk2
    simp [hk1, hk2]
theorem find?_eq_head?_filter {α : Type} (p : α → Bool) (l : List α) :
    l.find? p = (l.filter p).head? := by
  induction l with
  | nil => rfl
  | cons a l ih =>
      cases h : p a
      · rw [List.find?_cons_of_neg _ (by simp [h]),
          List.filter_cons_of_neg (by simp [h]), ih]
      · rw [List.find?_cons_of_pos _ h, List.filter_cons_of_pos h, List.head?_cons]

theorem generate_requests (save : PILImage → List Nat)
    (client : Request → Except String APIResponse)
    (orig tile : PILImage) (name : String) :
    (generate_with_ultra_specific_masking save client orig tile name).requests =
      [mkUltraRequest save orig tile name] := by
  cases hc : client (mkUltraRequest save orig tile name) with
  | error e => simp [generate_with_ultra_specific_masking, hc]
  | ok response =>
      cases hmap : (response.output.filter fun o => o.type == "image_generation_call").map
          (fun o => o.result) with
      | nil => simp [generate_with_ultra_specific_masking, hc, hmap]
      | cons b tail =>
          cases hdec : b64decodeString b with
          | none => simp [generate_with_ultra_specific_masking, hc, hmap, hdec]
          | some bytes =>
              cases hop : imageOpen bytes with
              | none => simp [generate_with_ultra_specific_masking, hc, hmap, hdec, hop]
              | some img => simp [generate_with_ultra_specific_masking, hc, hmap, hdec, hop]

/-- C5: per invocation exactly one request is issued to the external
image-generation endpoint, whatever the client answers: no retry after a
failure and no second request after an empty result. -/
theorem claim_C5_single_request (save : PILImage → List Nat)
    (client : Request → Except String APIResponse)
    (orig tile : PILImage) (name : String) :
    ((generate_with_ultra_specific_masking save client orig tile name).requests).length
      = 1 := by
  rw [generate_requests]
  rfl

/-- C7: the single request sent holds exactly one user message whose
content is, in order, the hard-coded instructional prompt text, the
bathroom image as a base64 PNG data URL, and the tile image as a base64
PNG data URL, with the image-generation tool enabled. -/
theorem claim_C7_request_content (save : PILImage → List Nat)
    (client : Request → Except String APIResponse)
    (orig tile : PILImage) (name : String) :
    (generate_with_ultra_specific_masking save client orig tile name).requests =
      [mkUltraRequest save orig tile name] ∧
    mkUltraRequest save orig tile name =
      { model := "gpt-4.1"
        input := [{ role := "user"
                    content := [ContentItem.input_text
                                  (ultraSpecificPrompt (get_finish_instruction (some name))),
                                ContentItem.input_image
                                  ("data:image/png;base64," ++ encode_image_to_base64 save orig),
                                ContentItem.input_image
                                  ("data:image/png;base64," ++ encode_image_to_base64 save tile)] }]
        tools := ["image_generation"] } :=
  ⟨generate_requests save client orig tile name, rfl⟩

/-- C4: the function never propagates an exception to its caller: an
error message is surfaced iff no image is returned, and any raise from
the request lands in the single catch-all handler, which shows the
exception message with the fixed prefix, uniformly in the message, and
makes the function return `None` with no retry. -/
theorem claim_C4_catch_all (save : PILImage → List Nat)
    (client : Request → Except String APIResponse)
    (orig tile : PILImage) (name : String) :
    ((generate_with_ultra_specific_masking save client orig tile name).errorMessage = none ↔
      ∃ img, (generate_with_ultra_specific_masking save client orig tile name).result
        = some img) ∧
    ∀ e, client (mkUltraRequest save orig tile name) = Except.error e →
      generate_with_ultra_specific_masking save client orig tile name =
        { errorMessage := some (errPrefix ++ e), result := none,
          requests := [mkUltraRequest save orig tile name] } := by
  constructor
  · cases hc : client (mkUltraRequest save orig tile name) with
    | error e => simp [generate_with_ultra_specific_masking, hc]
    | ok response =>
        cases hmap : (response.output.filter fun o => o.type == "image_generation_call").map
            (fun o => o.result) with
        | nil => simp [generate_with_ultra_specific_masking, hc, hmap]
        | cons b tail =>
            cases hdec : b64decodeString b with
            | none => simp [generate_with_ultra_specific_masking, hc, hmap, hdec]
            | some bytes =>
                cases hop : imageOpen bytes with
                | none => simp [generate_with_ultra_specific_masking, hc, hmap, hdec, hop]
                | some img => simp [generate_with_ultra_specific_masking, hc, hmap, hdec, hop]
  · intro e he
    simp only [generate_with_ultra_specific_masking, he]

/-- C3: when the response output holds at least one element of type
`image_generation_call`, the function returns the image decoded (base64,
then PNG) from the result of the first such element in output order;
when it holds no such element, it shows an error and returns `None`. -/
theorem claim_C3_first_image (save : PILImage → List Nat)
    (client : Request → Except String APIResponse)
    (orig tile : PILImage) (name : String) (response : APIResponse)
    (hok : client (mkUltraRequest save orig tile name) = Except.ok response) :
    (∀ o, response.output.find? (fun o => o.type == "image_generation_call") = some o →
      ∀ bytes, b64decodeString o.result = some bytes →
        ∀ img, imageOpen bytes = some img →
          generate_with_ultra_specific_masking save client orig tile name =
            { errorMessage := none, result := some img,
              requests := [mkUltraRequest save orig tile name] }) ∧
    (response.output.find? (fun o => o.type == "image_generation_call") = none →
      generate_with_ultra_specific_masking save client orig tile name =
        { errorMessage := some "Geen afbeelding gegenereerd.", result := none,
          requests := [mkUltraRequest save orig tile name] }) := by
  have hsplit := find?_eq_head?_filter
    (fun o => o.type == "image_generation_call") response.output
  constructor
  · intro o ho bytes hb img hi
    rw [hsplit] at ho
    cases hfil : response.output.filter (fun o => o.type == "image_generation_call") with
    | nil => rw [hfil] at ho; simp at ho
    | cons o' tail =>
        rw [hfil] at ho
        simp only [List.head?_cons, Option.some.injEq] at ho
        subst ho
        simp only [generate_with_ultra_specific_masking, hok, hfil, List.map_cons, hb, hi]
  · intro hnone
    rw [hsplit] at hnone
    cases hfil : response.output.filter (fun o => o.type == "image_generation_call") with
    | nil =>
        simp only [generate_with_ultra_specific_masking, hok, hfil, List.map_nil]
    | cons o' tail => rw [hfil] at hnone; simp at hnone

/-- C6: `encode_image_to_base64` base64-encodes the PNG serialization of
its input: base64-decoding the returned string yields exactly the bytes
produced by saving the image in PNG format. -/
theorem claim_C6_roundtrip (save : PILImage → List Nat) (image : PILImage)
    (h : ∀ b ∈ save image, b < 256) :
    b64decodeString (encode_image_to_base64 save image) = some (save image) :=
  b64decodeChars_encodeBytes (save image) h

/-- C8: when a predefined wall panel is selected but its image file is
missing, the app does not fail and does not leave the tile unset: a
200x200 grey placeholder image is substituted as `final_tile_image`. -/
theorem claim_C8_placeholder (fs : String → Option PILImage) (name tile_path : String)
    (hname : name ≠ defaultTileOption)
    (hpath : tile_options.lookup name = some (some tile_path))
    (hmissing : fs tile_path = none) :
    resolveFinalTileImage fs name = some (PILImage.new "RGB" (200, 200) "grey") := by
  unfold resolveFinalTileImage
  simp only [hname, beq_iff_eq, if_false, hpath, hmissing]
/-- C2: the finish clause is derived from a case-insensitive substring
match on the tile display name: glossy when the lowercased name holds
`glans` or `hoogglans`, else matte when it holds `mat` or `matte`, else
the reference-matching default; and the prompt the function sends embeds
exactly `get_finish_instruction tile_name` between the two fixed prompt
parts. -/
theorem claim_C2_finish_clause (save : PILImage → List Nat)
    (client : Request → Except String APIResponse)
    (orig tile : PILImage) (name : String) (hne : name ≠ "") :
    ((strContains (strToLower name) "glans" = true ∨
      strContains (strToLower name) "hoogglans" = true) →
      get_finish_instruction (some name) =
        "Apply glossy, reflective finish with sharp, clear reflections that accurately show the room\x27s lighting") ∧
    (strContains (strToLower name) "glans" = false →
     strContains (strToLower name) "hoogglans" = false →
     (strContains (strToLower name) "mat" = true ∨
      strContains (strToLower name) "matte" = true) →
      get_finish_instruction (some name) =
        "Apply matte, non-reflective finish with soft, diffused lighting and no sharp reflections") ∧
    (strContains (strToLower name) "glans" = false →
     strContains (strToLower name) "hoogglans" = false →
     strContains (strToLower name) "mat" = false →
     strContains (strToLower name) "matte" = false →
      get_finish_instruction (some name) =
        "Apply finish matching the reference image characteristics") ∧
    (generate_with_ultra_specific_masking save client orig tile name).requests.map textParts =
      [[ultraPromptPre ++ get_finish_instruction (some name) ++ ultraPromptPost]] := by
  have hb : (name == "") = false := by simp [hne]
  refine ⟨?_, ?_, ?_, ?_⟩
  · rintro (h | h) <;> simp [get_finish_instruction, hb, h]
  · intro h1 h2 h3
    rcases h3 with h3 | h3 <;> simp [get_finish_instruction, hb, h1, h2, h3]
  · intro h1 h2 h3 h4
    simp [get_finish_instruction, hb, h1, h2, h3, h4]
  · rw [generate_requests]
    simp [textParts, mkUltraRequest, ultraSpecificPrompt]

/-- C10: `get_finish_instruction` is total and its range is exactly four
fixed strings; empty or `None` tile names give the appropriate-finish
default; and for a name whose lowercase form holds both a glossy and a
matte keyword the glossy branch takes precedence. -/
theorem claim_C10_finish_range (name : String) :
    (∀ t : Option String,
      get_finish_instruction t = "Apply appropriate finish based on reference image" ∨
      get_finish_instruction t =
        "Apply glossy, reflective finish with sharp, clear reflections that accurately show the room\x27s lighting" ∨
      get_finish_instruction t =
        "Apply matte, non-reflective finish with soft, diffused lighting and no sharp reflections" ∨
      get_finish_instruction t = "Apply finish matching the reference image characteristics") ∧
    get_finish_instruction none = "Apply appropriate finish based on reference image" ∧
    get_finish_instruction (some "") = "Apply appropriate finish based on reference image" ∧
    ((strContains (strToLower name) "glans" ||
      strContains (strToLower name) "hoogglans") = true →
     (strContains (strToLower name) "mat" ||
      strContains (strToLower name) "matte") = true →
      get_finish_instruction (some name) =
        "Apply glossy, reflective finish with sharp, clear reflections that accurately show the room\x27s lighting") := by
  refine ⟨?_, rfl, rfl, ?_⟩
  · intro t
    cases t with
    | none => left; rfl
    | some s =>
        cases h0 : s == "" with
        | true => left; simp [get_finish_instruction, h0]
        | false =>
            cases h1 : strContains (strToLower s) "glans" with
            | true => right; left; simp [get_finish_instruction, h0, h1]
            | false =>
                cases h2 : strContains (strToLower s) "hoogglans" with
                | true => right; left; simp [get_finish_instruction, h0, h1, h2]
                | false =>
                    cases h3 : strContains (strToLower s) "mat" with
                    | true =>
                        right; right; left
                        simp [get_finish_instruction, h0, h1, h2, h3]
                    | false =>
                        cases h4 : strContains (strToLower s) "matte" with
                        | true =>
                            right; right; left
                            simp [get_finish_instruction, h0, h1, h2, h3, h4]
                        | false =>
                            right; right; right
                            simp [get_finish_instruction, h0, h1, h2, h3, h4]
  · intro hg hm
    have hne : (name == "") = false := by
      cases hname : name == ""
      · rfl
      · exfalso
        have heq : name = "" := by simpa using hname
        subst heq
        exact absurd hg (by decide)
    unfold get_finish_instruction
    simp only [Option.getD_some, hne, Bool.false_eq_true, if_false, hg, if_true]
/-- Witness for C1 at a concrete state. -/
theorem claim_C1_password_gate_witness :
    (stGateAfter "password_correct" = some (SVal.bool true) ↔ "geheim" = "geheim") ∧
    (check_password (some "geheim") stGate = true ↔
      stGate "password_correct" = some (SVal.bool true)) :=
  ⟨(claim_C1_password_gate "geheim" "geheim" stGate (by decide)
      (Or.inl (by decide))).2.1 stGateAfter rfl,
   (claim_C1_password_gate "geheim" "geheim" stGate (by decide)
      (Or.inl (by decide))).2.2⟩

/-- Witness for C9 at a concrete state with a wrong entry. -/
theorem claim_C9_password_frame_witness :
    stGateWrongAfter "password_correct" = some (SVal.bool false) ∧
    stGateWrongAfter "password" = stGateWrong "password" :=
  (claim_C9_password_frame "geheim" "fout" stGateWrong stGateWrongAfter
    (by decide) rfl).2.1 (by decide)

/-- Witness for C2 at a concrete glossy tile name. -/
theorem claim_C2_finish_clause_witness :
    get_finish_instruction (some "PVC Hoogglans Calacatta Wit") =
      "Apply glossy, reflective finish with sharp, clear reflections that accurately show the room\x27s lighting" :=
  (claim_C2_finish_clause (fun _ => []) (fun _ => Except.error "down") imgW imgW
    "PVC Hoogglans Calacatta Wit" (by decide)).1 (Or.inl (by decide))

/-- Witness for C3 at a concrete successful response. -/
theorem claim_C3_first_image_witness :
    generate_with_ultra_specific_masking (fun _ => []) (fun _ => Except.ok respW)
        imgW imgW "" =
      { errorMessage := none, result := some (PILImage.fromBytes pngSignature),
        requests := [mkUltraRequest (fun _ => []) imgW imgW ""] } :=
  (claim_C3_first_image (fun _ => []) (fun _ => Except.ok respW) imgW imgW "" respW
    rfl).1 { type := "image_generation_call", result := b64encode pngSignature }
    (by decide) pngSignature (by decide) (PILImage.fromBytes pngSignature) (by decide)

/-- Witness for C4 at a concrete failing client. -/
theorem claim_C4_catch_all_witness :
    generate_with_ultra_specific_masking (fun _ => []) (fun _ => Except.error "boom")
        imgW imgW "" =
      { errorMessage := some (errPrefix ++ "boom"), result := none,
        requests := [mkUltraRequest (fun _ => []) imgW imgW ""] } :=
  (claim_C4_catch_all (fun _ => []) (fun _ => Except.error "boom") imgW imgW "").2
    "boom" rfl

/-- Witness for C6 at a concrete serialization. -/
theorem claim_C6_roundtrip_witness :
    b64decodeString (encode_image_to_base64 (fun _ => pngSignature) imgW) =
      some pngSignature :=
  claim_C6_roundtrip (fun _ => pngSignature) imgW (by decide)

/-- Witness for C8 at a concrete predefined panel with a missing file. -/
theorem claim_C8_placeholder_witness :
    resolveFinalTileImage (fun _ => none) "PVC Hoogglans Calacatta Wit" =
      some (PILImage.new "RGB" (200, 200) "grey") :=
  claim_C8_placeholder (fun _ => none) "PVC Hoogglans Calacatta Wit"
    "tiles/pvc_hoogglans_calacatta_wit.jpg" (by decide) (by decide) rfl

/-- Witness for C10 at a name holding both a glossy and a matte keyword. -/
theorem claim_C10_finish_range_witness :
    get_finish_instruction (some "Hoogglans Matte") =
      "Apply glossy, reflective finish with sharp, clear reflections that accurately show the room\x27s lighting" :=
  (claim_C10_finish_range "Hoogglans Matte").2.2.2 (by decide) (by decide)
